import Mathlib

/-!
Verification of the activity-timeline reducer of the vespucci web app
(frontend `App` component): the event classifier (`onUpdateEvent`), the
archive effect watching the message stream, and the submission composer
(`handleSubmit`), embedded shallowly from the source.
-/

namespace Vespucci

/-- One observed phase of a research exchange: `{ title, data }`
(`ProcessedEvent` in the source). -/
structure ProcessedEvent where
  title : String
  data : String
deriving Repr, DecidableEq

/-- One gathered source as used by the web-research branch: only the
`label` field is read (`s.label`), which may be absent (`none`) or any
string.  `filter(Boolean)` in the source drops both absent and empty
labels. -/
structure Source where
  label : Option String
deriving Repr, DecidableEq

/-- Payload of the `generate_query` key: `search_query` may be absent
(the source reads it with optional chaining `?.`). -/
structure GenerateQueryPayload where
  search_query : Option (List String)
deriving Repr, DecidableEq

/-- Payload of the `web_research` key: `sources_gathered` may be absent
(the source defaults it with `|| []`). -/
structure WebResearchPayload where
  sources_gathered : Option (List Source)
deriving Repr, DecidableEq

/-- One update notification from the agent stream.  A field is `some _`
exactly when the notification carries that key with a truthy value, which
is what each `if (event.<key>)` test in the source checks. -/
structure UpdateEvent where
  generate_query : Option GenerateQueryPayload
  web_research : Option WebResearchPayload
  reflection : Option Unit
  finalize_answer : Option Unit
deriving Repr, DecidableEq

/-- A chat message as the archive effect and `handleSubmit` read it:
`type` (e.g. `"human"`, `"ai"`), `content`, and an optional `id`. -/
structure Message where
  type : String
  content : String
  id : Option String
deriving Repr, DecidableEq

/-- The reducer state held by the `App` component:
`processedEventsTimeline` (the LiveTimeline), `historicalActivities`
(HistoricalTimelines, the JS object modelled as an association list where
`List.lookup` takes the most recent binding, matching lookup in the
object produced by spread `{...prev, [id]: v}`), `backgroundContext`,
and the latch `hasFinalizeEventOccurredRef.current`. -/
structure AppState where
  processedEventsTimeline : List ProcessedEvent
  historicalActivities : List (String × List ProcessedEvent)
  backgroundContext : Option String
  hasFinalizeEventOccurred : Bool
deriving Repr, DecidableEq

/-- `[...new Set(xs)]` in JS: duplicates removed, first occurrence kept,
insertion order preserved. -/
def jsSetDedup : List String → List String
  | [] => []
  | x :: xs => x :: jsSetDedup (xs.filter (fun y => y ≠ x))
termination_by l => l.length
decreasing_by
  exact Nat.lt_succ_of_le (List.length_filter_le _ _)

/-- JS `Array.prototype.join(sep)`. -/
def jsJoin (sep : String) : List String → String
  | [] => ""
  | [x] => x
  | x :: y :: xs => x ++ sep ++ jsJoin sep (y :: xs)

/-- `sources.map(s => s.label).filter(Boolean)`: keep only present,
non-empty labels. -/
def truthyLabels (sources : List Source) : List String :=
  (sources.map (·.label)).filterMap
    (fun l => match l with
      | some s => if s = "" then none else some s
      | none => none)

/-- The record (if any) produced by `onUpdateEvent` for one notification,
and whether the finalize branch fired (the branch that raises the latch).
Mirrors the source's `if / else if` chain at lines 38–67 of the `App`
component. -/
def classifyEvent (e : UpdateEvent) : Option ProcessedEvent × Bool :=
  match e.generate_query with
  | some gq =>
      (some { title := "Generating Search Queries"
              data := (gq.search_query.map (jsJoin ", ")).getD "" },
       false)
  | none =>
  match e.web_research with
  | some wr =>
      let sources := wr.sources_gathered.getD []
      let numSources := sources.length
      let uniqueLabels := jsSetDedup (truthyLabels sources)
      let exampleLabels := jsJoin ", " (uniqueLabels.take 3)
      (some { title := "Web Research"
              data := "Gathered " ++ toString numSources ++
                " sources. Related to: " ++
                (if exampleLabels = "" then "N/A" else exampleLabels) ++ "." },
       false)
  | none =>
  match e.reflection with
  | some _ =>
      (some { title := "Reflection", data := "Analysing Web Research Results" },
       false)
  | none =>
  match e.finalize_answer with
  | some _ =>
      (some { title := "Finalizing Answer"
              data := "Composing and presenting the final answer." },
       true)
  | none => (none, false)

/-- The full `onUpdateEvent` callback as a state transition: append the
produced record (if any) to the live timeline and raise the latch when
the finalize branch fired. -/
def onUpdateEvent (s : AppState) (e : UpdateEvent) : AppState :=
  let r := classifyEvent e
  { s with
    hasFinalizeEventOccurred := s.hasFinalizeEventOccurred || r.2
    processedEventsTimeline :=
      match r.1 with
      | some rec => s.processedEventsTimeline ++ [rec]
      | none => s.processedEventsTimeline }

/-- JS truthiness of `lastMessage.id`: present and non-empty. -/
def idTruthy : Option String → Bool
  | some i => i != ""
  | none => false

/-- The archive `useEffect` (lines 80–95 of the `App` component) as a
state transition on `(messages, isLoading)` changes.  When the latch is
set, the stream is not loading and the message list is non-empty, it
inspects the last message; if that is an `"ai"` message with a truthy
`id`, it snapshots the live timeline into `historicalActivities` under
that id.  The latch is cleared whenever the outer guard passed,
regardless of the inner check.  The live timeline is NOT cleared here. -/
def archiveEffect (s : AppState) (messages : List Message)
    (isLoading : Bool) : AppState :=
  if s.hasFinalizeEventOccurred && !isLoading && !messages.isEmpty then
    match messages.getLast? with
    | some lm =>
        if lm.type == "ai" && idTruthy lm.id then
          { s with
            historicalActivities :=
              (lm.id.getD "", s.processedEventsTimeline) ::
                s.historicalActivities
            hasFinalizeEventOccurred := false }
        else
          { s with hasFinalizeEventOccurred := false }
    | none => { s with hasFinalizeEventOccurred := false }
  else s

/-- The effort switch of `handleSubmit`:
`(initial_search_query_count, max_research_loops)`. -/
def effortParams (effort : String) : Nat × Nat :=
  if effort = "low" then (1, 1)
  else if effort = "medium" then (3, 3)
  else if effort = "high" then (5, 10)
  else (0, 0)

/-- `combinedInput` of `handleSubmit`: `if (backgroundContext)` is a JS
truthiness test, so a `null` or empty context passes the input through
unchanged. -/
def combinedInput (bg : Option String) (input : String) : String :=
  match bg with
  | some c =>
      if c = "" then input
      else "Background Context:\n" ++ c ++ "\n\nUser Query:\n" ++ input
  | none => input

/-- The payload passed to `thread.submit`. -/
structure SubmitPayload where
  messages : List Message
  initial_search_query_count : Nat
  max_research_loops : Nat
  reasoning_model : String
deriving Repr, DecidableEq

/-- Code points removed by JS `String.prototype.trim` (the ones relevant
to this model: ASCII whitespace, NBSP, line/paragraph separators, BOM). -/
def isJSWhitespace (c : Char) : Bool :=
  c = ' ' || c = '\t' || c = '\n' || c = '\r' ||
  c = '\x0b' || c = '\x0c' ||
  c = '\u00A0' || c = '\u2028' || c = '\u2029' || c = '\uFEFF'

/-- JS `String.prototype.trim`. -/
def trimJS (str : String) : String :=
  String.mk
    (((str.toList.dropWhile isJSWhitespace).reverse.dropWhile
        isJSWhitespace).reverse)

/-- `handleSubmit` (lines 97–144 of the `App` component): a no-op when
the trimmed input is empty (falsy); otherwise clears the live timeline
and the latch, combines the background context with the input, maps the
effort level, and submits the prior thread messages plus one new human
message.  `newId` stands for `Date.now().toString()`. -/
def handleSubmit (s : AppState) (threadMessages : List Message)
    (input effort model newId : String) : AppState × Option SubmitPayload :=
  if trimJS input = "" then (s, none)
  else
    let s' := { s with
                processedEventsTimeline := ([] : List ProcessedEvent)
                hasFinalizeEventOccurred := false }
    let ci := combinedInput s.backgroundContext input
    let p := effortParams effort
    (s',
     some { messages := threadMessages ++
              [{ type := "human", content := ci, id := some newId }]
            initial_search_query_count := p.1
            max_research_loops := p.2
            reasoning_model := model })

/-- `clearBackgroundContext` (lines 153–155). -/
def clearBackgroundContext (s : AppState) : AppState :=
  { s with backgroundContext := none }

/-- `setBackgroundContext` as invoked by the widgets'
`onSendToCopilot` callbacks. -/
def setBackgroundContext (s : AppState) (c : String) : AppState :=
  { s with backgroundContext := some c }

/-- How many of the four recognized phase keys a notification carries. -/
def keyCount (e : UpdateEvent) : Nat :=
  (if e.generate_query.isSome then 1 else 0) +
  (if e.web_research.isSome then 1 else 0) +
  (if e.reflection.isSome then 1 else 0) +
  (if e.finalize_answer.isSome then 1 else 0)

/-- Spec-side formulation, following the spec's words rather than the
source: the distinct non-empty labels of a source list, duplicates
removed, stable insertion order (first occurrence kept).  Stated as a
left fold so it is a genuinely different formulation from the source's
`[...new Set(...filter(Boolean))]` (`jsSetDedup ∘ truthyLabels`). -/
def specDistinctLabels (sources : List Source) : List String :=
  sources.foldl
    (fun acc src =>
      match src.label with
      | some l => if l ≠ "" ∧ l ∉ acc then acc ++ [l] else acc
      | none => acc)
    []

/-- Spec-side formulation: the first three distinct non-empty labels in
insertion order. -/
def specFirstLabels (sources : List Source) : List String :=
  (specDistinctLabels sources).take 3

/-- The concrete source list of the spec's web-research example:
labels A, A, B, C, D. -/
def abcdSources : List Source :=
  [⟨some "A"⟩, ⟨some "A"⟩, ⟨some "B"⟩, ⟨some "C"⟩, ⟨some "D"⟩]

/- ------------------------------------------------------------------
Helper lemmas shared by the claim theorems.
------------------------------------------------------------------ -/

/-- When the latch is clear, the archive effect is the identity. -/
lemma archiveEffect_of_flag_false (s : AppState) (messages : List Message)
    (isLoading : Bool) (h : s.hasFinalizeEventOccurred = false) :
    archiveEffect s messages isLoading = s := by
  unfold archiveEffect
  rw [h]
  simp

/-- Under the archive conditions (latch set, not loading, last message an
`"ai"` message with non-empty id `m1`), the archive effect prepends the
snapshot `(m1, live timeline)` to the historical map and clears the
latch, leaving everything else unchanged. -/
lemma archiveEffect_eq_insert (s : AppState) (messages : List Message)
    (lm : Message) (m1 : String)
    (hflag : s.hasFinalizeEventOccurred = true)
    (hlast : messages.getLast? = some lm)
    (htype : lm.type = "ai") (hid : lm.id = some m1) (hne : m1 ≠ "") :
    archiveEffect s messages false =
      { s with
        historicalActivities :=
          (m1, s.processedEventsTimeline) :: s.historicalActivities
        hasFinalizeEventOccurred := false } := by
  have hnil : messages ≠ [] := by
    intro h
    rw [h] at hlast
    simp at hlast
  have hemp : messages.isEmpty = false := by
    cases messages with
    | nil => exact absurd rfl hnil
    | cons a l => rfl
  unfold archiveEffect
  rw [hflag, hemp, hlast]
  simp [htype, hid, idTruthy, hne]

/-- The classifier callback never touches the historical map. -/
lemma onUpdateEvent_historical (s : AppState) (e : UpdateEvent) :
    (onUpdateEvent s e).historicalActivities = s.historicalActivities := by
  unfold onUpdateEvent
  cases (classifyEvent e).1 <;> rfl

/- ------------------------------------------------------------------
Claim theorems.
------------------------------------------------------------------ -/

/-- Claim C1, counterexample: in a state where the latch is true and the
live timeline holds one record, a settle notification with
`isLoading = false` and a last message that is assistant-authored with
identity `"m1"` archives the snapshot and clears the latch, but the
LiveTimeline is NOT empty afterwards — the archive effect never clears
`processedEventsTimeline` (that happens only in `handleSubmit`). -/
theorem C1_counterexample :
    (archiveEffect
        { processedEventsTimeline := [{ title := "r1", data := "d1" }]
          historicalActivities := []
          backgroundContext := none
          hasFinalizeEventOccurred := true }
        [{ type := "ai", content := "ans", id := some "m1" }]
        false).processedEventsTimeline ≠ [] := by
  decide

/-- Claim C1 (amended): after a finalize-phase event has been classified
(latch true), a settle with `isLoading = false`, a non-empty message
list whose last message is assistant-authored with non-empty identity
`m1`, leaves HistoricalTimelines containing key `m1` mapped to exactly
the LiveTimeline contents at that moment, and the latch false; the
LiveTimeline is unchanged (not cleared) by the archive step. -/
theorem C1_archive_sequence (s : AppState) (messages : List Message)
    (lm : Message) (m1 : String)
    (hflag : s.hasFinalizeEventOccurred = true)
    (hlast : messages.getLast? = some lm)
    (htype : lm.type = "ai") (hid : lm.id = some m1) (hne : m1 ≠ "") :
    List.lookup m1 (archiveEffect s messages false).historicalActivities
        = some s.processedEventsTimeline ∧
      (archiveEffect s messages false).hasFinalizeEventOccurred = false ∧
      (archiveEffect s messages false).processedEventsTimeline
        = s.processedEventsTimeline := by
  rw [archiveEffect_eq_insert s messages lm m1 hflag hlast htype hid hne]
  refine ⟨?_, rfl, rfl⟩
  simp [List.lookup]

/-- Witness for C1: the amended archive sequence at a concrete state. -/
theorem C1_archive_sequence_witness :
    List.lookup "m1"
        (archiveEffect
          { processedEventsTimeline := [{ title := "r1", data := "d1" }]
            historicalActivities := []
            backgroundContext := none
            hasFinalizeEventOccurred := true }
          [{ type := "ai", content := "ans", id := some "m1" }]
          false).historicalActivities
      = some [{ title := "r1", data := "d1" }] :=
  (C1_archive_sequence
    { processedEventsTimeline := [{ title := "r1", data := "d1" }]
      historicalActivities := []
      backgroundContext := none
      hasFinalizeEventOccurred := true }
    [{ type := "ai", content := "ans", id := some "m1" }]
    { type := "ai", content := "ans", id := some "m1" } "m1"
    rfl rfl rfl rfl (by decide)).1

/-- Claim C2: re-invoking the settle check immediately after a
successful archive (same messages, same loading state) changes no state
— the latch is already clear, so the archive inserts each exchange's
trace at most once and no duplicate entry appears. -/
theorem C2_at_most_once_archive (s : AppState) (messages : List Message)
    (lm : Message) (m1 : String)
    (hflag : s.hasFinalizeEventOccurred = true)
    (hlast : messages.getLast? = some lm)
    (htype : lm.type = "ai") (hid : lm.id = some m1) (hne : m1 ≠ "") :
    (archiveEffect s messages false).hasFinalizeEventOccurred = false ∧
      archiveEffect (archiveEffect s messages false) messages false
        = archiveEffect s messages false := by
  have h := archiveEffect_eq_insert s messages lm m1 hflag hlast htype hid hne
  constructor
  · rw [h]
  · apply archiveEffect_of_flag_false
    rw [h]

/-- Witness for C2: idempotence of the settle check after a concrete
successful archive. -/
theorem C2_at_most_once_archive_witness :
    archiveEffect
        (archiveEffect
          { processedEventsTimeline := [{ title := "r1", data := "d1" }]
            historicalActivities := []
            backgroundContext := none
            hasFinalizeEventOccurred := true }
          [{ type := "ai", content := "ans", id := some "m1" }] false)
        [{ type := "ai", content := "ans", id := some "m1" }] false
      = archiveEffect
          { processedEventsTimeline := [{ title := "r1", data := "d1" }]
            historicalActivities := []
            backgroundContext := none
            hasFinalizeEventOccurred := true }
          [{ type := "ai", content := "ans", id := some "m1" }] false :=
  (C2_at_most_once_archive
    { processedEventsTimeline := [{ title := "r1", data := "d1" }]
      historicalActivities := []
      backgroundContext := none
      hasFinalizeEventOccurred := true }
    [{ type := "ai", content := "ans", id := some "m1" }]
    { type := "ai", content := "ans", id := some "m1" } "m1"
    rfl rfl rfl rfl (by decide)).2

/-- Claim C3: for a notification carrying exactly one of the four
recognized phase keys, the classifier produces exactly one record, whose
title is the documented fixed title for that phase; a notification
carrying none of the keys produces no record and leaves the timeline and
the latch (the whole state) unchanged. -/
theorem C3_classifier_totality (s : AppState) (e : UpdateEvent) :
    (keyCount e = 1 → e.generate_query.isSome →
        ((classifyEvent e).1.map (·.title)
          = some "Generating Search Queries")) ∧
      (keyCount e = 1 → e.web_research.isSome →
        ((classifyEvent e).1.map (·.title) = some "Web Research")) ∧
      (keyCount e = 1 → e.reflection.isSome →
        ((classifyEvent e).1.map (·.title) = some "Reflection")) ∧
      (keyCount e = 1 → e.finalize_answer.isSome →
        ((classifyEvent e).1.map (·.title) = some "Finalizing Answer")) ∧
      (keyCount e = 0 →
        (classifyEvent e).1 = none ∧ onUpdateEvent s e = s) := by
  obtain ⟨gq, wr, rf, fa⟩ := e
  cases gq <;> cases wr <;> cases rf <;> cases fa <;>
    simp [classifyEvent, keyCount, onUpdateEvent]

/-- Witness for C3: a reflection-only notification yields exactly the
"Reflection" record, and an empty notification leaves a concrete state
unchanged. -/
theorem C3_classifier_totality_witness :
    ((classifyEvent
        { generate_query := none, web_research := none
          reflection := some (), finalize_answer := none }).1.map (·.title)
      = some "Reflection")
    ∧ onUpdateEvent
        { processedEventsTimeline := [], historicalActivities := []
          backgroundContext := none, hasFinalizeEventOccurred := false }
        { generate_query := none, web_research := none
          reflection := none, finalize_answer := none }
      = { processedEventsTimeline := [], historicalActivities := []
          backgroundContext := none, hasFinalizeEventOccurred := false } :=
  ⟨(C3_classifier_totality
      { processedEventsTimeline := [], historicalActivities := []
        backgroundContext := none, hasFinalizeEventOccurred := false }
      { generate_query := none, web_research := none
        reflection := some (), finalize_answer := none }).2.2.1
      (by decide) (by decide),
   ((C3_classifier_totality
      { processedEventsTimeline := [], historicalActivities := []
        backgroundContext := none, hasFinalizeEventOccurred := false }
      { generate_query := none, web_research := none
        reflection := none, finalize_answer := none }).2.2.2.2
      (by decide)).2⟩

/-- Claim C8: the `if / else if` chain gives the fixed precedence
`generate_query` over `web_research` over `reflection` over
`finalize_answer`: with several recognized keys present, exactly the
highest-precedence record is produced, and the latch is not raised when
`finalize_answer` co-occurs with a higher-precedence key. -/
theorem C8_classifier_precedence (e : UpdateEvent) :
    (e.generate_query.isSome →
        ((classifyEvent e).1.map (·.title)
            = some "Generating Search Queries")
          ∧ (classifyEvent e).2 = false) ∧
      (e.generate_query = none → e.web_research.isSome →
        ((classifyEvent e).1.map (·.title) = some "Web Research")
          ∧ (classifyEvent e).2 = false) ∧
      (e.generate_query = none → e.web_research = none →
        e.reflection.isSome →
        ((classifyEvent e).1.map (·.title) = some "Reflection")
          ∧ (classifyEvent e).2 = false) ∧
      (e.generate_query = none → e.web_research = none →
        e.reflection = none → e.finalize_answer.isSome →
        ((classifyEvent e).1.map (·.title) = some "Finalizing Answer")
          ∧ (classifyEvent e).2 = true) ∧
      (e.finalize_answer.isSome →
        (e.generate_query.isSome ∨ e.web_research.isSome ∨
            e.reflection.isSome) →
        (classifyEvent e).2 = false) := by
  obtain ⟨gq, wr, rf, fa⟩ := e
  cases gq <;> cases wr <;> cases rf <;> cases fa <;>
    simp [classifyEvent]

/-- Witness for C8: a notification carrying both `generate_query` and
`finalize_answer` produces only the query-generation record and does not
raise the latch. -/
theorem C8_classifier_precedence_witness :
    ((classifyEvent
        { generate_query := some { search_query := some ["q"] }
          web_research := none, reflection := none
          finalize_answer := some () }).1.map (·.title)
      = some "Generating Search Queries")
    ∧ (classifyEvent
        { generate_query := some { search_query := some ["q"] }
          web_research := none, reflection := none
          finalize_answer := some () }).2 = false :=
  (C8_classifier_precedence
    { generate_query := some { search_query := some ["q"] }
      web_research := none, reflection := none
      finalize_answer := some () }).1 (by decide)

/-- A nonempty string has positive length. -/
lemma length_pos_of_ne_empty (s : String) (h : s ≠ "") : 0 < s.length := by
  cases s with
  | mk d =>
    cases d with
    | nil => simp at h
    | cons c cs => simp [String.length]

/-- `jsJoin` of a list whose head is non-empty is non-empty. -/
lemma jsJoin_ne_empty (sep x : String) (xs : List String) (hx : x ≠ "") :
    jsJoin sep (x :: xs) ≠ "" := by
  cases xs with
  | nil => simpa [jsJoin] using hx
  | cons y ys =>
    intro h
    rw [show jsJoin sep (x :: y :: ys)
          = x ++ sep ++ jsJoin sep (y :: ys) from rfl] at h
    have hlen := congrArg String.length h
    rw [String.length_append, String.length_append] at hlen
    have hx' := length_pos_of_ne_empty x hx
    have h0 : ("" : String).length = 0 := rfl
    rw [h0] at hlen
    omega

/-- The left-fold formulation of first-occurrence dedup agrees with the
filtering recursion `jsSetDedup`, for any accumulator. -/
lemma foldl_dedup_eq (l : List String) : ∀ acc : List String,
    l.foldl (fun acc x => if x ∈ acc then acc else acc ++ [x]) acc
      = acc ++ jsSetDedup (l.filter (fun y => y ∉ acc)) := by
  induction l with
  | nil =>
    intro acc
    simp only [List.foldl_nil, List.filter_nil]
    rw [jsSetDedup]
    simp
  | cons x xs ih =>
    intro acc
    rw [List.foldl_cons]
    by_cases hx : x ∈ acc
    · rw [if_pos hx, ih acc]
      have hfil : (x :: xs).filter (fun y => y ∉ acc)
          = xs.filter (fun y => y ∉ acc) := by
        simp [List.filter_cons, hx]
      rw [hfil]
    · rw [if_neg hx, ih (acc ++ [x])]
      have hfil : (x :: xs).filter (fun y => y ∉ acc)
          = x :: xs.filter (fun y => y ∉ acc) := by
        simp [List.filter_cons, hx]
      rw [hfil, jsSetDedup]
      have hpt : ∀ a ∈ xs, (decide (a ∉ acc ++ [x]))
          = (decide (a ≠ x) && decide (a ∉ acc)) := by
        intro a _
        by_cases h1 : a = x <;> by_cases h2 : a ∈ acc <;>
          simp [h1, h2, List.mem_append]
      rw [List.filter_congr hpt, ← List.filter_filter]
      simp

/-- The spec-side fold over sources equals the source's
`[...new Set(sources.map(s => s.label).filter(Boolean))]`. -/
lemma specDistinctLabels_eq (srcs : List Source) :
    specDistinctLabels srcs = jsSetDedup (truthyLabels srcs) := by
  have hmain : ∀ acc : List String,
      srcs.foldl
        (fun acc src =>
          match src.label with
          | some l => if l ≠ "" ∧ l ∉ acc then acc ++ [l] else acc
          | none => acc) acc
      = (truthyLabels srcs).foldl
          (fun acc x => if x ∈ acc then acc else acc ++ [x]) acc := by
    induction srcs with
    | nil => intro acc; simp [truthyLabels]
    | cons src srcs ih =>
      intro acc
      obtain ⟨lbl⟩ := src
      cases lbl with
      | none => simpa [truthyLabels] using ih acc
      | some l =>
        by_cases hl : l = ""
        · simpa [truthyLabels, hl] using ih acc
        · by_cases hm : l ∈ acc
          · simpa [truthyLabels, hl, hm] using ih acc
          · simpa [truthyLabels, hl, hm] using ih (acc ++ [l])
  unfold specDistinctLabels
  rw [hmain [], foldl_dedup_eq]
  have : (truthyLabels srcs).filter (fun y => y ∉ ([] : List String))
      = truthyLabels srcs := List.filter_eq_self.mpr (by simp)
  rw [this]
  simp

/-- `jsSetDedup` only keeps elements of its input. -/
lemma jsSetDedup_subset : ∀ (n : Nat) (l : List String), l.length ≤ n →
    ∀ a ∈ jsSetDedup l, a ∈ l := by
  intro n
  induction n with
  | zero =>
    intro l hl
    cases l with
    | nil => rw [jsSetDedup]; simp
    | cons x xs => simp at hl
  | succ n ih =>
    intro l hl
    cases l with
    | nil => rw [jsSetDedup]; simp
    | cons x xs =>
      rw [jsSetDedup]
      intro a ha
      rcases List.mem_cons.mp ha with h1 | h2
      · exact h1 ▸ List.mem_cons_self a xs
      · have hlen : (xs.filter (fun y => y ≠ x)).length ≤ n := by
          have := List.length_filter_le (fun y => decide (y ≠ x)) xs
          simp at hl
          omega
        exact List.mem_cons_of_mem x
          (List.mem_of_mem_filter (ih _ hlen a h2))

/-- Every label kept by `filter(Boolean)` is non-empty. -/
lemma ne_empty_of_mem_truthyLabels (a : String) (srcs : List Source)
    (h : a ∈ truthyLabels srcs) : a ≠ "" := by
  unfold truthyLabels at h
  rw [List.mem_filterMap] at h
  obtain ⟨ol, _, hol⟩ := h
  cases ol with
  | none => simp at hol
  | some s =>
    by_cases hs : s = ""
    · simp [hs] at hol
    · simp [hs] at hol
      exact hol ▸ hs

/-- Every label in the spec-side first-three list is non-empty. -/
lemma ne_empty_of_mem_specFirstLabels (a : String) (srcs : List Source)
    (h : a ∈ specFirstLabels srcs) : a ≠ "" := by
  unfold specFirstLabels at h
  have h2 := List.mem_of_mem_take h
  rw [specDistinctLabels_eq] at h2
  exact ne_empty_of_mem_truthyLabels a srcs
    (jsSetDedup_subset (truthyLabels srcs).length _ le_rfl a h2)

/-- The joined label list is empty exactly when there are no labels. -/
lemma jsJoin_specFirstLabels_eq_empty_iff (srcs : List Source) :
    jsJoin ", " (specFirstLabels srcs) = "" ↔ specFirstLabels srcs = [] := by
  constructor
  · intro h
    cases hL : specFirstLabels srcs with
    | nil => rfl
    | cons x xs =>
      exact absurd (hL ▸ h)
        (jsJoin_ne_empty ", " x xs
          (ne_empty_of_mem_specFirstLabels x srcs (by rw [hL]; simp)))
  · intro h
    rw [h]
    rfl

/-- Claim C4: for a notification carrying the web-research key with a
source list, the record's data reports the total source count and the
first three distinct non-empty labels in insertion order joined by
`", "` (characterized by the spec-side `specFirstLabels`), with `"N/A"`
exactly when no non-empty labels exist; sources labelled A,A,B,C,D give
label list "A, B, C" and count 5; a missing source list degrades to
count 0 and "N/A". -/
theorem C4_web_research_summary (srcs : List Source) (rf fa : Option Unit) :
    ((classifyEvent
        { generate_query := none
          web_research := some { sources_gathered := some srcs }
          reflection := rf, finalize_answer := fa }).1
      = some { title := "Web Research"
               data := "Gathered " ++ toString srcs.length ++
                 " sources. Related to: " ++
                 (if jsJoin ", " (specFirstLabels srcs) = "" then "N/A"
                  else jsJoin ", " (specFirstLabels srcs)) ++ "." })
    ∧ (jsJoin ", " (specFirstLabels srcs) = "" ↔ specFirstLabels srcs = [])
    ∧ specFirstLabels abcdSources = ["A", "B", "C"]
    ∧ (classifyEvent
        { generate_query := none
          web_research := some { sources_gathered := some abcdSources }
          reflection := none, finalize_answer := none }).1
      = some { title := "Web Research"
               data := "Gathered 5 sources. Related to: A, B, C." }
    ∧ (classifyEvent
        { generate_query := none
          web_research := some { sources_gathered := none }
          reflection := none, finalize_answer := none }).1
      = some { title := "Web Research"
               data := "Gathered 0 sources. Related to: N/A." } := by
  have hsf : specFirstLabels srcs
      = (jsSetDedup (truthyLabels srcs)).take 3 := by
    unfold specFirstLabels
    rw [specDistinctLabels_eq]
  refine ⟨?_, jsJoin_specFirstLabels_eq_empty_iff srcs, by decide,
    by simp [classifyEvent, abcdSources, truthyLabels, jsSetDedup, jsJoin];
       rfl,
    by simp [classifyEvent, truthyLabels, jsSetDedup, jsJoin]; rfl⟩
  rw [hsf]
  rfl

/-- Claim C5, counterexample: with the background context set to the
empty string (present as a value, but falsy in JS), the submitted
content is the raw input, not the documented preamble form — the
`if (backgroundContext)` truthiness test treats an empty context as
absent. -/
theorem C5_counterexample :
    ((handleSubmit
        { processedEventsTimeline := [], historicalActivities := []
          backgroundContext := some "", hasFinalizeEventOccurred := false }
        [] "Q" "low" "m" "7").2.map (fun p => p.messages.map (·.content)))
      = some ["Q"]
    ∧ "Q" ≠ "Background Context:\n\n\nUser Query:\nQ" := by
  decide

/-- Claim C5 (amended): for a submission with non-blank input, the
payload equals prior messages plus one new human message whose content
is the preamble form when a NON-EMPTY background context is present and
the raw input verbatim otherwise (a `null` or empty context passes the
input through), with the effort table low → (1,1), medium → (3,3),
high → (5,10), anything else → (0,0), and the selected model string. -/
theorem C5_submission_payload (s : AppState) (msgs : List Message)
    (input effort model newId : String) (h : trimJS input ≠ "") :
    handleSubmit s msgs input effort model newId =
      ({ s with
          processedEventsTimeline := ([] : List ProcessedEvent)
          hasFinalizeEventOccurred := false },
       some { messages := msgs ++
                [{ type := "human"
                   content :=
                     match s.backgroundContext with
                     | some c =>
                         if c = "" then input
                         else "Background Context:\n" ++ c ++
                           "\n\nUser Query:\n" ++ input
                     | none => input
                   id := some newId }]
              initial_search_query_count :=
                if effort = "low" then 1
                else if effort = "medium" then 3
                else if effort = "high" then 5 else 0
              max_research_loops :=
                if effort = "low" then 1
                else if effort = "medium" then 3
                else if effort = "high" then 10 else 0
              reasoning_model := model }) := by
  have h1 : effortParams effort =
      (if effort = "low" then 1
       else if effort = "medium" then 3
       else if effort = "high" then 5 else 0,
       if effort = "low" then 1
       else if effort = "medium" then 3
       else if effort = "high" then 10 else 0) := by
    unfold effortParams
    split_ifs <;> rfl
  unfold handleSubmit
  rw [if_neg h, h1]
  rfl

/-- Witness for C5: the amended payload at a concrete submission with a
non-empty background context and high effort. -/
theorem C5_submission_payload_witness :
    handleSubmit
        { processedEventsTimeline := [{ title := "r1", data := "d1" }]
          historicalActivities := []
          backgroundContext := some "C", hasFinalizeEventOccurred := true }
        [] "Q" "high" "gemini" "7"
      = ({ processedEventsTimeline := []
           historicalActivities := []
           backgroundContext := some "C"
           hasFinalizeEventOccurred := false },
         some { messages := [{ type := "human"
                               content := "Background Context:\nC\n\nUser Query:\nQ"
                               id := some "7" }]
                initial_search_query_count := 5
                max_research_loops := 10
                reasoning_model := "gemini" }) := by
  rw [C5_submission_payload
    { processedEventsTimeline := [{ title := "r1", data := "d1" }]
      historicalActivities := []
      backgroundContext := some "C", hasFinalizeEventOccurred := true }
    [] "Q" "high" "gemini" "7" (by decide)]
  rfl

/-- Claim C6: the archive step stores the live timeline by value: after
an archive keyed by `m1`, any later append performed by the classifier
callback leaves the archived entry equal to the snapshot taken at
archive time, and the classifier callback never mutates the historical
map at all. -/
theorem C6_snapshot_by_value (s : AppState) (messages : List Message)
    (lm : Message) (m1 : String)
    (hflag : s.hasFinalizeEventOccurred = true)
    (hlast : messages.getLast? = some lm)
    (htype : lm.type = "ai") (hid : lm.id = some m1) (hne : m1 ≠ "") :
    (∀ (t : AppState) (e : UpdateEvent),
        (onUpdateEvent t e).historicalActivities = t.historicalActivities)
      ∧ ∀ e : UpdateEvent,
          List.lookup m1
              (onUpdateEvent (archiveEffect s messages false)
                e).historicalActivities
            = some s.processedEventsTimeline := by
  refine ⟨fun t e => onUpdateEvent_historical t e, fun e => ?_⟩
  rw [onUpdateEvent_historical,
    archiveEffect_eq_insert s messages lm m1 hflag hlast htype hid hne]
  simp [List.lookup]

/-- Witness for C6: a reflection event appended after a concrete archive
leaves the archived entry unchanged. -/
theorem C6_snapshot_by_value_witness :
    List.lookup "m1"
        (onUpdateEvent
          (archiveEffect
            { processedEventsTimeline := [{ title := "r1", data := "d1" }]
              historicalActivities := []
              backgroundContext := none
              hasFinalizeEventOccurred := true }
            [{ type := "ai", content := "ans", id := some "m1" }] false)
          { generate_query := none, web_research := none
            reflection := some (), finalize_answer := none
          }).historicalActivities
      = some [{ title := "r1", data := "d1" }] :=
  (C6_snapshot_by_value
    { processedEventsTimeline := [{ title := "r1", data := "d1" }]
      historicalActivities := []
      backgroundContext := none
      hasFinalizeEventOccurred := true }
    [{ type := "ai", content := "ans", id := some "m1" }]
    { type := "ai", content := "ans", id := some "m1" } "m1"
    rfl rfl rfl rfl (by decide)).2
    { generate_query := none, web_research := none
      reflection := some (), finalize_answer := none }

/-- Claim C7: every submission with non-blank input (with or without a
background-context preamble) clears the live timeline and the latch in
the state it produces, and a payload is submitted. -/
theorem C7_submission_reset (s : AppState) (msgs : List Message)
    (input effort model newId : String) (h : trimJS input ≠ "") :
    (handleSubmit s msgs input effort model newId).1.processedEventsTimeline
        = []
      ∧ (handleSubmit s msgs input effort
          model newId).1.hasFinalizeEventOccurred = false
      ∧ ((handleSubmit s msgs input effort model newId).2).isSome = true := by
  unfold handleSubmit
  rw [if_neg h]
  exact ⟨rfl, rfl, rfl⟩

/-- Witness for C7: the reset at a concrete submission with a non-empty
background context (preamble prepended) and a dirty state. -/
theorem C7_submission_reset_witness :
    (handleSubmit
        { processedEventsTimeline := [{ title := "r1", data := "d1" }]
          historicalActivities := []
          backgroundContext := some "C", hasFinalizeEventOccurred := true }
        [] "Q" "low" "m" "7").1.processedEventsTimeline = [] :=
  (C7_submission_reset
    { processedEventsTimeline := [{ title := "r1", data := "d1" }]
      historicalActivities := []
      backgroundContext := some "C", hasFinalizeEventOccurred := true }
    [] "Q" "low" "m" "7" (by decide)).1

/-- Claim C9: a submission whose input is empty or all-whitespace is a
complete no-op: the state (live timeline, latch, historical map,
background context) is returned unchanged and no payload is produced. -/
theorem C9_whitespace_guard (s : AppState) (msgs : List Message)
    (input effort model newId : String)
    (h : ∀ c ∈ input.toList, isJSWhitespace c) :
    handleSubmit s msgs input effort model newId = (s, none) := by
  have htrim : trimJS input = "" := by
    unfold trimJS
    rw [List.dropWhile_eq_nil_iff.mpr h]
    rfl
  unfold handleSubmit
  rw [if_pos htrim]

/-- Witness for C9: an all-whitespace input leaves a concrete dirty
state untouched and submits nothing. -/
theorem C9_whitespace_guard_witness :
    handleSubmit
        { processedEventsTimeline := [{ title := "r1", data := "d1" }]
          historicalActivities := [("m1", [])]
          backgroundContext := some "C", hasFinalizeEventOccurred := true }
        [] "  \n\t " "low" "m" "7"
      = ({ processedEventsTimeline := [{ title := "r1", data := "d1" }]
           historicalActivities := [("m1", [])]
           backgroundContext := some "C", hasFinalizeEventOccurred := true },
         none) :=
  C9_whitespace_guard
    { processedEventsTimeline := [{ title := "r1", data := "d1" }]
      historicalActivities := [("m1", [])]
      backgroundContext := some "C", hasFinalizeEventOccurred := true }
    [] "  \n\t " "low" "m" "7" (by decide)

/-- Claim C10, counterexample: a background context set to the empty
string persists through a submission (it is not cleared), yet it is NOT
prepended to the submission's text — the truthiness test skips it — so
"once set, the context is prepended until cleared" fails as stated. -/
theorem C10_counterexample :
    ((handleSubmit
        { processedEventsTimeline := [], historicalActivities := []
          backgroundContext := some "", hasFinalizeEventOccurred := false }
        [] "Q" "low" "m" "7").1.backgroundContext = some "")
    ∧ ((handleSubmit
        { processedEventsTimeline := [], historicalActivities := []
          backgroundContext := some "", hasFinalizeEventOccurred := false }
        [] "Q" "low" "m" "7").2.map (fun p => p.messages.map (·.content))
      = some ["Q"])
    ∧ "Q" ≠ "Background Context:\n\n\nUser Query:\nQ" := by
  decide

/-- Claim C10 (amended): submitting never changes the background
context; once set to a NON-EMPTY string `c`, `c` is prepended to every
subsequent non-blank submission's text until `clearBackgroundContext`
resets it to `none` (an empty-string context persists but behaves as
unset); `clearBackgroundContext` always clears it. -/
theorem C10_background_persistence (s : AppState) (msgs : List Message)
    (input effort model newId c : String)
    (hbg : s.backgroundContext = some c) (hc : c ≠ "")
    (h : trimJS input ≠ "") :
    (∀ (t : AppState) msgs2 input2 effort2 model2 newId2,
        (handleSubmit t msgs2 input2 effort2 model2
          newId2).1.backgroundContext = t.backgroundContext)
      ∧ ((handleSubmit s msgs input effort model newId).2.bind
            (fun p => p.messages.getLast?)).map (·.content)
          = some ("Background Context:\n" ++ c ++ "\n\nUser Query:\n" ++ input)
      ∧ ∀ t : AppState, (clearBackgroundContext t).backgroundContext = none := by
  refine ⟨?_, ?_, fun t => rfl⟩
  · intro t msgs2 input2 effort2 model2 newId2
    unfold handleSubmit
    by_cases h2 : trimJS input2 = ""
    · rw [if_pos h2]
    · rw [if_neg h2]
  · unfold handleSubmit
    rw [if_neg h]
    simp [combinedInput, hbg, hc, List.getLast?_concat]

/-- Witness for C10: persistence and prepending at a concrete state with
context "C". -/
theorem C10_background_persistence_witness :
    ((handleSubmit
        { processedEventsTimeline := [], historicalActivities := []
          backgroundContext := some "C", hasFinalizeEventOccurred := false }
        [] "Q" "low" "m" "7").2.bind
        (fun p => p.messages.getLast?)).map (·.content)
      = some "Background Context:\nC\n\nUser Query:\nQ" := by
  have := (C10_background_persistence
    { processedEventsTimeline := [], historicalActivities := []
      backgroundContext := some "C", hasFinalizeEventOccurred := false }
    [] "Q" "low" "m" "7" "C" rfl (by decide) (by decide)).2.1
  simpa using this

end Vespucci
